import Mathlib

/-!
Shallow embedding of `visonic/alarm.py` (VisonicAlarm2): the status-derivation
algorithm of `System.update_status`, device classification of
`System.update_devices`, `ContactDevice.state`, the event-action mapping of
`System.get_last_event`, the arm/disarm command bodies of the `API` class, and
the GET transport result handling of `API.__send_get_request`.

Machine strings are Lean `String`; JSON payloads are structures holding the
fields the code reads; Python `None`-able results are `Option`; a Python
exception escaping a function is `Except.error`.
-/

/-! ## Python string membership (`pat in s`) -/

/-- Tests whether `p` is a prefix of the character list `l` (helper for the
Python substring operator `in`). -/
def hasPref : List Char → List Char → Bool
  | _, [] => true
  | [], _ :: _ => false
  | h :: hs, p :: ps => if h = p then hasPref hs ps else false

/-- Tests whether `pat` occurs as a contiguous sublist of `hay`. -/
def containsSub : List Char → List Char → Bool
  | [], pat => hasPref [] pat
  | h :: t, pat => hasPref (h :: t) pat || containsSub t pat

/-- Python `pat in s` for strings: substring membership. -/
def strContains (s pat : String) : Bool :=
  containsSub s.data pat.data

theorem hasPref_self (l : List Char) : hasPref l l = true := by
  induction l with
  | nil => rfl
  | cons h t ih => simp [hasPref, ih]

theorem containsSub_self (l : List Char) : containsSub l l = true := by
  cases l with
  | nil => rfl
  | cons h t => simp [containsSub, hasPref_self]

theorem containsSub_append_self (a b : List Char) :
    containsSub (a ++ b) b = true := by
  induction a with
  | nil => simpa using containsSub_self b
  | cons c t ih => simp [containsSub, ih]

theorem strContains_append_right (a b : String) :
    strContains (a ++ b) b = true := by
  have hdata : (a ++ b).data = a.data ++ b.data := by
    cases a; cases b; rfl
  unfold strContains
  rw [hdata]
  exact containsSub_append_self a.data b.data

/-! ## Python `warnings` values

The `warnings` JSON field can be `null` (Python `None`), a string, or a list;
the code uses its truthiness (`if self.warnings:`) and its textual rendering
(`str(self.warnings)`). -/

inductive PyWarnings where
  | none
  | str (s : String)
  | list (items : List String)
deriving DecidableEq

/-- Python truthiness of the warnings value (`if self.warnings:`). -/
def pyTruthy : PyWarnings → Bool
  | PyWarnings.none => false
  | PyWarnings.str s => !s.data.isEmpty
  | PyWarnings.list items => !items.isEmpty

/-- Python `str()` of the warnings value. The rendering of a non-empty list
joins the item renderings inside square brackets. -/
def pyStr : PyWarnings → String
  | PyWarnings.none => "None"
  | PyWarnings.str s => s
  | PyWarnings.list items => "[" ++ String.intercalate ", " items ++ "]"

namespace ContactDevice

/-- Embedding of `ContactDevice.state`: reads `self.warnings` only. -/
def state (warnings : PyWarnings) : String :=
  if pyTruthy warnings then
    if strContains (pyStr warnings) "OPENED" then "opened" else "closed"
  else "closed"

end ContactDevice

/-! ## Status payload and the derived system state (`System.update_status`) -/

/-- One record of the `partitions` array of the status payload. -/
structure Partition where
  ready : Bool
  state : String
  status : String
deriving DecidableEq

/-- The JSON payload returned by the status endpoint. -/
structure StatusPayload where
  connected : Bool
  partitions : List Partition
deriving DecidableEq

/-- One entry of the active-alarm list returned by the alarms endpoint; the
code only counts these entries, so no field is consulted. -/
structure AlarmEvent where
deriving DecidableEq

/-- The mutable snapshot fields of `System` that `update_status` touches:
`__system_ready`, `__system_connected`, `__system_state`, `__system_alarm`.
`state` starts out as Python `None`, hence `Option String`. -/
structure SystemState where
  ready : Bool
  connected : Bool
  state : Option String
  alarm : Bool
deriving DecidableEq

/-- The guard `alarms_events is None or len(alarms_events) == 0`. -/
def noActiveAlarms : Option (List AlarmEvent) → Bool
  | Option.none => true
  | Option.some l => l.length == 0

/-- Embedding of `System.update_status`, as a function of the previous
snapshot, the status payload and the alarms result. `status.partitions[0]` on
an empty array raises `IndexError`, modelled as `none`. -/
def update_status (sys : SystemState) (status : StatusPayload)
    (alarms_events : Option (List AlarmEvent)) : Option SystemState :=
  match status.partitions with
  | [] => Option.none
  | partition :: _ =>
    let sys1 : SystemState :=
      { sys with ready := partition.ready, connected := status.connected }
    if noActiveAlarms alarms_events then
      if partition.status = "EXIT" ∧ (partition.state = "AWAY" ∨ partition.state = "HOME") then
        Option.some { sys1 with state := Option.some "ARMING" }
      else
        Option.some { sys1 with state := Option.some partition.state, alarm := false }
    else
      if partition.state = "HOME" ∨ partition.state = "AWAY" then
        Option.some { sys1 with state := Option.some "ALARM", alarm := true }
      else
        Option.some { sys1 with state := Option.some partition.state, alarm := true }

theorem update_status_arming (prev : SystemState) (conn : Bool) (p : Partition)
    (rest : List Partition) (alarms : Option (List AlarmEvent))
    (hna : noActiveAlarms alarms = true) (hst : p.status = "EXIT")
    (hstate : p.state = "AWAY" ∨ p.state = "HOME") :
    update_status prev ⟨conn, p :: rest⟩ alarms =
      Option.some { prev with ready := p.ready, connected := conn,
                              state := Option.some "ARMING" } := by
  simp only [update_status]
  rw [if_pos hna, if_pos ⟨hst, hstate⟩]

theorem update_status_no_alarm_other (prev : SystemState) (conn : Bool)
    (p : Partition) (rest : List Partition) (alarms : Option (List AlarmEvent))
    (hna : noActiveAlarms alarms = true)
    (hcond : ¬(p.status = "EXIT" ∧ (p.state = "AWAY" ∨ p.state = "HOME"))) :
    update_status prev ⟨conn, p :: rest⟩ alarms =
      Option.some { prev with ready := p.ready, connected := conn,
                              state := Option.some p.state, alarm := false } := by
  simp only [update_status]
  rw [if_pos hna, if_neg hcond]

theorem update_status_alarm_homeaway (prev : SystemState) (conn : Bool)
    (p : Partition) (rest : List Partition) (alarms : Option (List AlarmEvent))
    (hna : noActiveAlarms alarms = false)
    (hstate : p.state = "HOME" ∨ p.state = "AWAY") :
    update_status prev ⟨conn, p :: rest⟩ alarms =
      Option.some { prev with ready := p.ready, connected := conn,
                              state := Option.some "ALARM", alarm := true } := by
  simp only [update_status]
  rw [if_neg (by simp [hna]), if_pos hstate]

theorem update_status_alarm_other (prev : SystemState) (conn : Bool)
    (p : Partition) (rest : List Partition) (alarms : Option (List AlarmEvent))
    (hna : noActiveAlarms alarms = false)
    (hstate : ¬(p.state = "HOME" ∨ p.state = "AWAY")) :
    update_status prev ⟨conn, p :: rest⟩ alarms =
      Option.some { prev with ready := p.ready, connected := conn,
                              state := Option.some p.state, alarm := true } := by
  simp only [update_status]
  rw [if_neg (by simp [hna]), if_neg hstate]

/-! ## Device classification (`System.update_devices`) -/

/-- One raw device entry of the devices endpoint, holding the fields that
`update_devices` reads. -/
structure RawDevice where
  id : Nat
  name : String
  zone_type : String
  device_type : String
  subtype : String
  preenroll : Bool
  warnings : PyWarnings
  partitions : List Int
deriving DecidableEq

/-- The subclass a raw device entry is instantiated as. -/
inductive DeviceKind where
  | contact
  | camera
  | motion
  | smoke
  | generic
deriving DecidableEq

/-- A constructed device: the subclass tag plus the constructor arguments
passed to `Device.__init__` (`zone` receives the raw `zone_type`). -/
structure Device where
  kind : DeviceKind
  id : Nat
  name : String
  zone : String
  device_type : String
  subtype : String
  preenroll : Bool
  warnings : PyWarnings
  partitions : List Int
deriving DecidableEq

/-- The body of the loop of `System.update_devices`: one raw entry is turned
into a device of the subclass chosen by the `subtype` chain. -/
def classify_device (device : RawDevice) : Device :=
  if device.subtype = "CONTACT_AUX" ∨ device.subtype = "CONTACT" then
    { kind := DeviceKind.contact, id := device.id, name := device.name,
      zone := device.zone_type, device_type := device.device_type,
      subtype := device.subtype, preenroll := device.preenroll,
      warnings := device.warnings, partitions := device.partitions }
  else if device.subtype = "MOTION_CAMERA" then
    { kind := DeviceKind.camera, id := device.id, name := device.name,
      zone := device.zone_type, device_type := device.device_type,
      subtype := device.subtype, preenroll := device.preenroll,
      warnings := device.warnings, partitions := device.partitions }
  else if device.subtype = "MOTION" ∨ device.subtype = "CURTAIN" then
    { kind := DeviceKind.motion, id := device.id, name := device.name,
      zone := device.zone_type, device_type := device.device_type,
      subtype := device.subtype, preenroll := device.preenroll,
      warnings := device.warnings, partitions := device.partitions }
  else if device.subtype = "SMOKE" then
    { kind := DeviceKind.smoke, id := device.id, name := device.name,
      zone := device.zone_type, device_type := device.device_type,
      subtype := device.subtype, preenroll := device.preenroll,
      warnings := device.warnings, partitions := device.partitions }
  else
    { kind := DeviceKind.generic, id := device.id, name := device.name,
      zone := device.zone_type, device_type := device.device_type,
      subtype := device.subtype, preenroll := device.preenroll,
      warnings := device.warnings, partitions := device.partitions }

/-- Embedding of `System.update_devices`: the cached list is cleared and
rebuilt by appending one classified device per raw entry, in order. -/
def update_devices (devices : List RawDevice) : List Device :=
  devices.map classify_device

/-- Specification-side classification table (spec sections 3 and 8), written
from the spec wording for comparison with `classify_device`. -/
def specKindOfSubtype (subtype : String) : DeviceKind :=
  if subtype = "CONTACT" ∨ subtype = "CONTACT_AUX" then DeviceKind.contact
  else if subtype = "MOTION_CAMERA" then DeviceKind.camera
  else if subtype = "MOTION" ∨ subtype = "CURTAIN" then DeviceKind.motion
  else if subtype = "SMOKE" then DeviceKind.smoke
  else DeviceKind.generic

theorem classify_device_kind (d : RawDevice) :
    (classify_device d).kind = specKindOfSubtype d.subtype := by
  by_cases h1 : d.subtype = "CONTACT_AUX" ∨ d.subtype = "CONTACT"
  · rcases h1 with h | h <;> simp [classify_device, specKindOfSubtype, h]
  · push_neg at h1
    by_cases h2 : d.subtype = "MOTION_CAMERA"
    · simp [classify_device, specKindOfSubtype, h2]
    · by_cases h3 : d.subtype = "MOTION" ∨ d.subtype = "CURTAIN"
      · rcases h3 with h | h <;> simp [classify_device, specKindOfSubtype, h]
      · push_neg at h3
        by_cases h4 : d.subtype = "SMOKE"
        · simp [classify_device, specKindOfSubtype, h4, h1.1, h1.2, h2, h3.1, h3.2]
        · simp [classify_device, specKindOfSubtype, h4, h1.1, h1.2, h2, h3.1, h3.2]

/-! ## Event history (`System.get_last_event`) -/

/-- One entry of the events endpoint, holding the fields `get_last_event`
reads. Date parsing and formatting (`dateutil.parser.parse`, `strftime`) are
abstracted: `datetime` is an hour count, to which `relativedelta(hours=...)`
adds the caller's offset. -/
structure EventRec where
  event : Nat
  type_id : Int
  appointment : String
  datetime : Int
deriving DecidableEq

/-- A Python exception escaping a call. -/
inductive PyError where
  | indexError
deriving DecidableEq

/-- The `data` dict built by `get_last_event`. -/
structure EventData where
  event_id : Nat
  action : String
  user : String
  timestamp : Int
deriving DecidableEq

/-- The `type_id` elif chain of `get_last_event`, determining the action. -/
def determine_action (type_id : Int) : String :=
  if type_id = 89 then "Disarm"
  else if type_id = 85 then "ArmHome"
  else if type_id = 86 then "ArmAway"
  else if type_id = 2 then "Alarm"
  else "Unknown type_id: " ++ toString type_id

/-- Embedding of `System.get_last_event`: the events result may be absent
(`None`), and `events[-1]` on an empty list raises `IndexError`. -/
def get_last_event (events : Option (List EventRec))
    (timestamp_hour_offset : Int) : Except PyError (Option EventData) :=
  match events with
  | Option.none => Except.ok Option.none
  | Option.some es =>
    match es.getLast? with
    | Option.none => Except.error PyError.indexError
    | Option.some last_event =>
      Except.ok (Option.some
        { event_id := last_event.event,
          action := determine_action last_event.type_id,
          user := last_event.appointment,
          timestamp := last_event.datetime + timestamp_hour_offset })

/-! ## API command bodies and GET transport handling -/

/-- The JSON body POSTed to the set_state endpoint by `arm_home`, `arm_away`
and `disarm`. -/
structure SetStateBody where
  partition : Int
  state : String
deriving DecidableEq

/-- Body built by `API.arm_home`; the `partition` parameter is unused. -/
def arm_home (partition : String) : SetStateBody :=
  { partition := -1, state := "HOME" }

/-- Body built by `API.arm_away`; the `partition` parameter is unused. -/
def arm_away (partition : String) : SetStateBody :=
  { partition := -1, state := "AWAY" }

/-- Body built by `API.disarm`; the `partition` parameter is unused. -/
def disarm (partition : String) : SetStateBody :=
  { partition := -1, state := "DISARM" }

/-- An HTTP response: status code and body text. -/
structure HttpResponse where
  status_code : Nat
  content : String
deriving DecidableEq

/-- Embedding of `API.__send_get_request` result handling. The
`raise_for_status` HTTPError is caught and logged, so no exception propagates
for any HTTP status; the parsed JSON body (`json.loads` abstracted as the raw
content) is returned only when `status_code == requests.codes.ok`, which is
exactly 200; every other status falls through to the implicit `None`. -/
def send_get_request (response : HttpResponse) : Option String :=
  if response.status_code = 200 then Option.some response.content
  else Option.none

/-! ## Claims -/

/-- C1, counterexample: with one active alarm event and first-partition state
"DISARM", `update_status` sets `alarm := true` but the derived state is
"DISARM", not "ALARM", so the claimed invariant fails after this call. -/
theorem c1_counterexample :
    ∃ s : SystemState,
      update_status ⟨false, false, Option.none, false⟩
        ⟨true, [⟨true, "DISARM", "NORMAL"⟩]⟩ (Option.some [⟨⟩]) = Option.some s ∧
      s.alarm = true ∧ s.state ≠ Option.some "ALARM" := by
  refine ⟨⟨true, true, Option.some "DISARM", true⟩, ?_, rfl, by decide⟩
  decide

/-- C1 (amended): after `update_status`, `alarmActive == true` implies the
derived state is "ALARM", or the raw first-partition state passed through
unchanged when it lies outside {HOME, AWAY}, or "ARMING" with the flag merely
carried over unchanged from the previous snapshot. -/
theorem c1_alarm_state_amended (prev : SystemState) (payload : StatusPayload)
    (alarms : Option (List AlarmEvent)) (s : SystemState) (p : Partition)
    (rest : List Partition) (hpart : payload.partitions = p :: rest)
    (hupd : update_status prev payload alarms = Option.some s)
    (halarm : s.alarm = true) :
    s.state = Option.some "ALARM" ∨
    (s.state = Option.some p.state ∧ p.state ≠ "HOME" ∧ p.state ≠ "AWAY") ∨
    (s.state = Option.some "ARMING" ∧ prev.alarm = true) := by
  obtain ⟨conn, parts⟩ := payload
  simp only at hpart
  subst hpart
  cases hna : noActiveAlarms alarms with
  | true =>
    by_cases hcond : p.status = "EXIT" ∧ (p.state = "AWAY" ∨ p.state = "HOME")
    · rw [update_status_arming prev conn p rest alarms hna hcond.1 hcond.2] at hupd
      obtain rfl : _ = s := Option.some.inj hupd
      exact Or.inr (Or.inr ⟨rfl, halarm⟩)
    · rw [update_status_no_alarm_other prev conn p rest alarms hna hcond] at hupd
      obtain rfl : _ = s := Option.some.inj hupd
      simp at halarm
  | false =>
    by_cases hstate : p.state = "HOME" ∨ p.state = "AWAY"
    · rw [update_status_alarm_homeaway prev conn p rest alarms hna hstate] at hupd
      obtain rfl : _ = s := Option.some.inj hupd
      exact Or.inl rfl
    · rw [update_status_alarm_other prev conn p rest alarms hna hstate] at hupd
      obtain rfl : _ = s := Option.some.inj hupd
      push_neg at hstate
      exact Or.inr (Or.inl ⟨rfl, hstate.1, hstate.2⟩)

/-- C1 witness: the amended theorem applied at a concrete alarm-branch
input with first-partition state "HOME". -/
theorem c1_amended_witness :
    (⟨true, true, Option.some "ALARM", true⟩ : SystemState).state
        = Option.some "ALARM" ∨
    ((⟨true, true, Option.some "ALARM", true⟩ : SystemState).state
        = Option.some (Partition.state ⟨true, "HOME", "NORMAL"⟩) ∧
      Partition.state ⟨true, "HOME", "NORMAL"⟩ ≠ "HOME" ∧
      Partition.state ⟨true, "HOME", "NORMAL"⟩ ≠ "AWAY") ∨
    ((⟨true, true, Option.some "ALARM", true⟩ : SystemState).state
        = Option.some "ARMING" ∧
      SystemState.alarm ⟨false, false, Option.none, false⟩ = true) :=
  c1_alarm_state_amended ⟨false, false, Option.none, false⟩
    ⟨true, [⟨true, "HOME", "NORMAL"⟩]⟩ (Option.some [⟨⟩])
    ⟨true, true, Option.some "ALARM", true⟩ ⟨true, "HOME", "NORMAL"⟩ []
    rfl (by decide) rfl

/-- C2: with no active alarms (absent or empty list), first-partition status
"EXIT" and state "AWAY" or "HOME", `update_status` sets the derived state to
"ARMING" (and leaves the alarm flag untouched). -/
theorem c2_exit_arming (prev : SystemState) (payload : StatusPayload)
    (alarms : Option (List AlarmEvent)) (p : Partition) (rest : List Partition)
    (hpart : payload.partitions = p :: rest)
    (hna : noActiveAlarms alarms = true)
    (hst : p.status = "EXIT")
    (hstate : p.state = "AWAY" ∨ p.state = "HOME") :
    update_status prev payload alarms =
      Option.some { prev with ready := p.ready, connected := payload.connected,
                              state := Option.some "ARMING" } := by
  obtain ⟨conn, parts⟩ := payload
  simp only at hpart
  subst hpart
  exact update_status_arming prev conn p rest alarms hna hst hstate

/-- C2 witness: the theorem applied at a concrete EXIT/AWAY payload with an
absent alarm list. -/
theorem c2_witness :
    update_status ⟨false, false, Option.none, false⟩
        ⟨true, [⟨false, "AWAY", "EXIT"⟩]⟩ Option.none =
      Option.some ⟨false, true, Option.some "ARMING", false⟩ := by
  have h := c2_exit_arming ⟨false, false, Option.none, false⟩
    ⟨true, [⟨false, "AWAY", "EXIT"⟩]⟩ Option.none ⟨false, "AWAY", "EXIT"⟩ []
    rfl rfl rfl (Or.inl rfl)
  exact h

/-- C3: with at least one active alarm event, `update_status` sets
`alarm := true`; the derived state becomes "ALARM" when the first partition's
state is "HOME" or "AWAY", and is the raw partition state unchanged
otherwise. -/
theorem c3_alarm_branch (prev : SystemState) (payload : StatusPayload)
    (l : List AlarmEvent) (p : Partition) (rest : List Partition)
    (hpart : payload.partitions = p :: rest) (hl : l ≠ []) :
    ∃ s, update_status prev payload (Option.some l) = Option.some s ∧
      s.alarm = true ∧
      ((p.state = "HOME" ∨ p.state = "AWAY") → s.state = Option.some "ALARM") ∧
      (¬(p.state = "HOME" ∨ p.state = "AWAY") → s.state = Option.some p.state) := by
  obtain ⟨conn, parts⟩ := payload
  simp only at hpart
  subst hpart
  have hna : noActiveAlarms (Option.some l) = false := by
    cases l with
    | nil => exact absurd rfl hl
    | cons a t => simp [noActiveAlarms]
  by_cases hstate : p.state = "HOME" ∨ p.state = "AWAY"
  · refine ⟨_, update_status_alarm_homeaway prev conn p rest _ hna hstate,
      rfl, fun _ => rfl, fun hc => absurd hstate hc⟩
  · refine ⟨_, update_status_alarm_other prev conn p rest _ hna hstate,
      rfl, fun hc => absurd hc hstate, fun _ => rfl⟩

/-- C3 witness: the theorem applied at a concrete payload with state "HOME"
and one active alarm event, yielding state "ALARM" and the alarm flag set. -/
theorem c3_witness :
    ∃ s, update_status ⟨false, false, Option.none, false⟩
        ⟨true, [⟨true, "HOME", "NORMAL"⟩]⟩ (Option.some [⟨⟩]) = Option.some s ∧
      s.alarm = true ∧ s.state = Option.some "ALARM" := by
  obtain ⟨s, h1, h2, h3, _⟩ := c3_alarm_branch ⟨false, false, Option.none, false⟩
    ⟨true, [⟨true, "HOME", "NORMAL"⟩]⟩ [⟨⟩] ⟨true, "HOME", "NORMAL"⟩ []
    rfl (by decide)
  exact ⟨s, h1, h2, h3 (Or.inl rfl)⟩

/-- C4: `get_last_event` returns absence when the events result itself is
absent, but on a present-and-empty event list the `events[-1]` lookup raises
`IndexError` instead of yielding an absent result. -/
theorem c4_empty_events :
    get_last_event Option.none 0 = Except.ok Option.none ∧
    get_last_event (Option.some []) 0 = Except.error PyError.indexError :=
  ⟨rfl, rfl⟩

/-- C5: the chosen device kind is a pure function of the `subtype` field, and
rebuilding from a raw list assigns each entry the kind given by the spec's
classification table (CONTACT/CONTACT_AUX to Contact, MOTION_CAMERA to
Camera, MOTION/CURTAIN to Motion, SMOKE to Smoke, anything else to Generic);
being a function of the raw list, re-running it yields the same assignment. -/
theorem c5_classification :
    (∀ d d' : RawDevice, d.subtype = d'.subtype →
      (classify_device d).kind = (classify_device d').kind) ∧
    (∀ raw : List RawDevice,
      (update_devices raw).map Device.kind =
        raw.map (fun d => specKindOfSubtype d.subtype)) := by
  constructor
  · intro d d' hsub
    rw [classify_device_kind, classify_device_kind, hsub]
  · intro raw
    simp only [update_devices, List.map_map]
    exact List.map_congr_left fun d _ => classify_device_kind d

/-- C5 witness: two raw entries sharing subtype "CONTACT" but differing in
every other field classify to the same kind. -/
theorem c5_witness :
    (classify_device ⟨1, "door", "PERIMETER", "ZONE", "CONTACT", false,
        PyWarnings.none, [1]⟩).kind =
      (classify_device ⟨2, "window", "INTERIOR", "ZONE", "CONTACT", true,
        PyWarnings.str "OPENED", [2]⟩).kind :=
  c5_classification.1 _ _ rfl

theorem contact_state_opened_or_closed (w : PyWarnings) :
    ContactDevice.state w = "opened" ∨ ContactDevice.state w = "closed" := by
  unfold ContactDevice.state
  by_cases h1 : pyTruthy w = true
  · rw [if_pos h1]
    by_cases h2 : strContains (pyStr w) "OPENED" = true
    · rw [if_pos h2]; exact Or.inl rfl
    · rw [if_neg h2]; exact Or.inr rfl
  · rw [if_neg h1]; exact Or.inr rfl

theorem contact_state_opened_iff (w : PyWarnings) :
    ContactDevice.state w = "opened" ↔
      (w ≠ PyWarnings.none ∧ strContains (pyStr w) "OPENED" = true) := by
  cases w with
  | none => decide
  | str s =>
    by_cases hs : s = ""
    · subst hs; decide
    · have hd : s.data.isEmpty = false := by
        cases hdata : s.data with
        | nil =>
          exact absurd (String.ext (hdata.trans rfl)) hs
        | cons c cs => simp [hdata]
      simp only [ContactDevice.state, pyTruthy, pyStr, hd, Bool.not_false,
        if_true, ne_eq, reduceCtorEq, not_false_iff, true_and]
      by_cases hc : strContains s "OPENED" = true
      · simp [hc]
      · simp [hc]
  | list items =>
    cases items with
    | nil => decide
    | cons a t =>
      simp only [ContactDevice.state, pyTruthy, pyStr, List.isEmpty_cons,
        Bool.not_false, if_true, ne_eq, reduceCtorEq, not_false_iff, true_and]
      by_cases hc : strContains ("[" ++ String.intercalate ", " (a :: t) ++ "]") "OPENED" = true
      · simp [hc]
      · simp [hc]

/-- C6: a contact device reports "opened" exactly when its warnings value is
present (not Python None) and its text contains "OPENED"; for an absent
warnings value or any other warnings text the reported state is "closed". -/
theorem c6_contact_state (w : PyWarnings) :
    (ContactDevice.state w = "opened" ↔
      (w ≠ PyWarnings.none ∧ strContains (pyStr w) "OPENED" = true)) ∧
    (¬(w ≠ PyWarnings.none ∧ strContains (pyStr w) "OPENED" = true) →
      ContactDevice.state w = "closed") := by
  refine ⟨contact_state_opened_iff w, fun hn => ?_⟩
  rcases contact_state_opened_or_closed w with h | h
  · exact absurd ((contact_state_opened_iff w).mp h) hn
  · exact h

/-- C6 witness: the theorem applied at an absent warnings value (giving
"closed") and at a warnings text containing "OPENED" (giving "opened"). -/
theorem c6_witness :
    ContactDevice.state PyWarnings.none = "closed" ∧
    ContactDevice.state (PyWarnings.str "CONTACT OPENED") = "opened" :=
  ⟨(c6_contact_state PyWarnings.none).2 (by decide),
   (c6_contact_state (PyWarnings.str "CONTACT OPENED")).1.mpr
     ⟨by decide, by decide⟩⟩

/-- C7: event type code 89 maps to "Disarm", 85 to "ArmHome", 86 to
"ArmAway", 2 to "Alarm", and any other code to a passthrough label that
contains the code. -/
theorem c7_action_mapping :
    determine_action 89 = "Disarm" ∧ determine_action 85 = "ArmHome" ∧
    determine_action 86 = "ArmAway" ∧ determine_action 2 = "Alarm" ∧
    ∀ c : Int, c ≠ 89 → c ≠ 85 → c ≠ 86 → c ≠ 2 →
      strContains (determine_action c) (toString c) = true := by
  refine ⟨rfl, rfl, rfl, rfl, fun c h89 h85 h86 h2 => ?_⟩
  simp only [determine_action, if_neg h89, if_neg h85, if_neg h86, if_neg h2]
  exact strContains_append_right "Unknown type_id: " (toString c)

/-- C7 witness: the passthrough clause of the theorem applied at code 77. -/
theorem c7_witness :
    strContains (determine_action 77) (toString (77 : Int)) = true :=
  c7_action_mapping.2.2.2.2 77 (by decide) (by decide) (by decide) (by decide)

/-- C8: for any partition argument, the arm/disarm command bodies carry the
literal partition -1 and the respective state string, and the argument never
influences the body. -/
theorem c8_command_bodies (p q : String) :
    arm_home p = { partition := -1, state := "HOME" } ∧
    arm_away p = { partition := -1, state := "AWAY" } ∧
    disarm p = { partition := -1, state := "DISARM" } ∧
    arm_home p = arm_home q ∧ arm_away p = arm_away q ∧ disarm p = disarm q :=
  ⟨rfl, rfl, rfl, rfl, rfl, rfl⟩

/-- C9, counterexample: a 2xx response whose status is not exactly 200 (here
201) yields absence, not the parsed body, so the claim's 2xx clause fails. -/
theorem c9_counterexample :
    ¬ ∀ response : HttpResponse,
        200 ≤ response.status_code → response.status_code < 300 →
          send_get_request response = Option.some response.content := by
  intro h
  have h201 := h ⟨201, "created"⟩ (by decide) (by decide)
  simp [send_get_request] at h201

/-- C9 (amended): a GET response with status exactly 200 yields the parsed
body; every other status, 2xx included, yields an absent result, and no
structured exception is raised (the return type is a plain option). -/
theorem c9_get_result (response : HttpResponse) :
    (response.status_code = 200 →
      send_get_request response = Option.some response.content) ∧
    (response.status_code ≠ 200 → send_get_request response = Option.none) := by
  constructor
  · intro h; simp [send_get_request, h]
  · intro h; simp [send_get_request, h]

/-- C9 witness: the amended theorem applied at a 200 response and at a 404
response. -/
theorem c9_witness :
    send_get_request ⟨200, "body"⟩ = Option.some "body" ∧
    send_get_request ⟨404, "not found"⟩ = Option.none :=
  ⟨(c9_get_result ⟨200, "body"⟩).1 rfl,
   (c9_get_result ⟨404, "not found"⟩).2 (by decide)⟩

/-- C10: in the ARMING branch (no active alarms, first-partition status
"EXIT", state "AWAY" or "HOME") the alarm flag is not assigned, so a previous
snapshot with the flag set keeps it set while the state becomes "ARMING". -/
theorem c10_arming_keeps_alarm (prev : SystemState) (payload : StatusPayload)
    (alarms : Option (List AlarmEvent)) (p : Partition) (rest : List Partition)
    (hpart : payload.partitions = p :: rest)
    (hna : noActiveAlarms alarms = true)
    (hst : p.status = "EXIT")
    (hstate : p.state = "AWAY" ∨ p.state = "HOME")
    (hprev : prev.alarm = true) :
    ∃ s, update_status prev payload alarms = Option.some s ∧
      s.state = Option.some "ARMING" ∧ s.alarm = true := by
  obtain ⟨conn, parts⟩ := payload
  simp only at hpart
  subst hpart
  exact ⟨_, update_status_arming prev conn p rest alarms hna hst hstate,
    rfl, hprev⟩

/-- C10 witness: the theorem applied with a previous snapshot whose alarm
flag is set and an empty alarm list on an EXIT/HOME partition. -/
theorem c10_witness :
    ∃ s, update_status ⟨false, false, Option.some "ALARM", true⟩
        ⟨true, [⟨false, "HOME", "EXIT"⟩]⟩ (Option.some []) = Option.some s ∧
      s.state = Option.some "ARMING" ∧ s.alarm = true :=
  c10_arming_keeps_alarm ⟨false, false, Option.some "ALARM", true⟩
    ⟨true, [⟨false, "HOME", "EXIT"⟩]⟩ (Option.some []) ⟨false, "HOME", "EXIT"⟩
    [] rfl rfl rfl (Or.inr rfl) rfl
